import Mathlib

/-!
Verification development for `generate_sample_data.py` (apex-maths-radar).

Shallow embedding conventions:
* Python ints are `ℕ`/`ℤ`; Python floats in the probability heuristic are `ℚ`
  (the source only adds, subtracts, compares and clamps decimal constants).
* The global pseudo-random generator is modelled by explicit draw streams,
  indexed by the number of questions answered so far: `u k` models the
  `random.random()` draw and `d k` the `random.randint(15, 30)` draw of the
  k-th question (the source consumes exactly one of each per question, in
  program order).
* The simulated clock `current_time` always equals
  `datetime(2026, 2, 1, 9, 0, 0) + elapsed seconds`; we carry `elapsed : ℕ`
  (in seconds) and record it as the `timestamp` field.  `isoformat` of that
  datetime is a strictly monotone injective image of `elapsed`.
* The per-loop bodies of `simulate_student_performance` are factored into
  one Lean function per loop nesting level (`answerQuestion` for the body of
  the innermost `seq` loop, `simulateQs` for the `q_type`/`seq` loops,
  `simulateComps` for the competency loop with its time-limit check and
  `break`, `simulateGrades` for the grade loop).
-/

namespace ApexMaths

/-- Competencies by grade level: the `GRADE_COMPETENCIES` dict of the source
(grades 4..12, four tags each); other keys are absent in the dict and never
looked up by the program. -/
def GRADE_COMPETENCIES : ℕ → List String
  | 4 => ["NUM-MultiDigit", "COMP-Advanced", "MEAS-Standard", "GEOM-Reasoning"]
  | 5 => ["COMP-Advanced", "NUM-Large", "NUM-FracDec", "MEAS-Advanced"]
  | 6 => ["NUM-FracDec", "DATA-Represent", "NUM-Theory", "RATIO-Proportion"]
  | 7 => ["RATIO-Proportion", "ALG-PreAlg", "GEOM-Advanced", "NUM-Theory"]
  | 8 => ["ALG-PreAlg", "GEOM-Advanced", "NUM-AdvSystems", "GEOM-Coord"]
  | 9 => ["ALG-Manipulation", "FUNC-Relationships", "GEOM-Coord", "GEOM-Advanced"]
  | 10 => ["ALG-Manipulation", "FUNC-Relationships", "NUM-AdvSystems", "GEOM-Trig"]
  | 11 => ["FUNC-Advanced", "CALC-Foundations", "GEOM-Trig", "DATA-Stats"]
  | 12 => ["FUNC-Advanced", "CALC-Foundations", "DATA-Stats", "GEOM-Trig"]
  | _ => []

/-- Constant `QUESTIONS_PER_COMPETENCY = 6` from the source. -/
def QUESTIONS_PER_COMPETENCY : ℕ := 6

/-- Name pool `FIRST_NAMES` from the source. -/
def FIRST_NAMES : List String :=
  ["Thabo", "Lerato", "Sipho", "Naledi", "Johan", "Fatima", "Ayesha",
   "Pieter", "Zanele", "Mandla", "Caitlin", "Ravi", "Lindiwe", "James",
   "Precious", "David", "Neo", "Palesa", "Mohammed", "Sarah"]

/-- Name pool `LAST_NAMES` from the source. -/
def LAST_NAMES : List String :=
  ["Nkosi", "Dlamini", "Van der Merwe", "Pillay", "Mokoena", "Smith",
   "Ndlovu", "Botha", "Govender", "Molefe", "Williams", "Tshabalala"]

/-- Constant `time_limit_seconds = 90 * 60` from the source. -/
def time_limit_seconds : ℕ := 90 * 60

/-- Python `f"{n:02d}"` for a nonnegative `n`: zero-pad to (at least) two
digits. -/
def pad2 (n : ℕ) : String := if n < 10 then "0" ++ toString n else toString n

/-- Python `f"{n:03d}"` for a nonnegative `n`: zero-pad to (at least) three
digits. -/
def pad3 (n : ℕ) : String :=
  if n < 10 then "00" ++ toString n
  else if n < 100 then "0" ++ toString n
  else toString n

/-- Function `generate_question_id(grade, competency, q_type, seq)` from the source:
the f-string `G{grade}_{competency}_T{q_type}_{seq:02d}`. -/
def generate_question_id (grade : ℕ) (competency : String) (q_type seq : ℕ) :
    String :=
  "G" ++ toString grade ++ "_" ++ competency ++ "_T" ++ toString q_type
    ++ "_" ++ pad2 seq

/-- The per-question success-probability computation of
`simulate_student_performance` (source lines 63-85): the `grade_diff`
if/elif chain, the type-3 penalty, and the final clamp
`max(0.15, min(0.98, prob_correct))`. -/
def prob_correct (grade : ℕ) (student_grade : ℤ) (base_skill : ℚ)
    (q_type : ℕ) : ℚ :=
  let grade_diff : ℤ := (grade : ℤ) - student_grade
  let p0 : ℚ :=
    if grade_diff ≤ -2 then 0.95
    else if grade_diff ≤ 0 then base_skill + 0.1
    else if grade_diff = 1 then base_skill - 0.05
    else if grade_diff = 2 then base_skill - 0.15
    else max 0.25 (base_skill - (grade_diff : ℚ) * 0.1)
  let p1 : ℚ := if q_type = 3 then p0 - 0.05 else p0
  max 0.15 (min 0.98 p1)

/-- One Response Record: the dict appended to `responses` (source lines
93-100).  `timestamp` is the elapsed seconds encoded by the recorded
`current_time.isoformat()` (see module docstring). -/
structure Response where
  question_id : String
  grade_tag : String
  competency_tag : String
  type_tag : String
  is_correct : ℕ
  timestamp : ℕ
  deriving Repr, DecidableEq

/-- Simulator state: `(elapsed seconds of the simulated clock, number of
questions answered so far)`.  The second component indexes the draw
streams. -/
abbrev SimState := ℕ × ℕ

/-- Body of the innermost `seq` loop (source lines 63-100): compute the
success probability, draw correctness, advance the clock by
`randint(15,30) + (grade - 4) * 3` seconds, and emit the record carrying the
post-advance clock. -/
def answerQuestion (student_grade : ℤ) (base_skill : ℚ) (u : ℕ → ℚ)
    (d : ℕ → ℕ) (grade : ℕ) (comp : String) (q_type seq : ℕ)
    (st : SimState) : Response × SimState :=
  let p := prob_correct grade student_grade base_skill q_type
  let isc : ℕ := if u st.2 < p then 1 else 0
  let time_per_q := d st.2 + (grade - 4) * 3
  let e2 := st.1 + time_per_q
  (⟨generate_question_id grade comp q_type seq,
    "Grade-" ++ toString grade, comp, "Type-" ++ toString q_type, isc, e2⟩,
   (e2, st.2 + 1))

/-- The `for q_type in [1, 2, 3]: for seq in [1, 2]:` nesting, flattened to
the list of `(q_type, seq)` pairs it enumerates, in program order. -/
def QUESTIONS : List (ℕ × ℕ) :=
  [1, 2, 3].flatMap (fun t => [1, 2].map (fun s => (t, s)))

/-- The two inner question loops of one competency, run over an explicit
list of `(q_type, seq)` pairs (every question is answered unconditionally:
there is no check inside these loops). -/
def simulateQs (student_grade : ℤ) (base_skill : ℚ) (u : ℕ → ℚ)
    (d : ℕ → ℕ) (grade : ℕ) (comp : String) :
    List (ℕ × ℕ) → SimState → List Response × SimState
  | [], st => ([], st)
  | q :: qs, st =>
      let r := answerQuestion student_grade base_skill u d grade comp
        q.1 q.2 st
      let rest := simulateQs student_grade base_skill u d grade comp qs r.2
      (r.1 :: rest.1, rest.2)

/-- All six questions of one competency, in source order. -/
def simulateComp (student_grade : ℤ) (base_skill : ℚ) (u : ℕ → ℚ)
    (d : ℕ → ℕ) (grade : ℕ) (comp : String) (st : SimState) :
    List Response × SimState :=
  simulateQs student_grade base_skill u d grade comp QUESTIONS st

/-- The competency loop of one grade (source lines 55-100): before each
competency, check `elapsed >= time_limit_seconds` and `break` out of this
loop (skipping all remaining competencies of the grade) when it holds. -/
def simulateComps (student_grade : ℤ) (base_skill : ℚ) (u : ℕ → ℚ)
    (d : ℕ → ℕ) (grade : ℕ) :
    List String → SimState → List Response × SimState
  | [], st => ([], st)
  | c :: cs, st =>
      if time_limit_seconds ≤ st.1 then ([], st)
      else
        let p := simulateComp student_grade base_skill u d grade c st
        let q := simulateComps student_grade base_skill u d grade cs p.2
        (p.1 ++ q.1, q.2)

/-- The grade loop (source lines 52-100), run over an explicit grade list.
There is no time check at this level: every grade is visited. -/
def simulateGrades (student_grade : ℤ) (base_skill : ℚ) (u : ℕ → ℚ)
    (d : ℕ → ℕ) : List ℕ → SimState → List Response × SimState
  | [], st => ([], st)
  | g :: gs, st =>
      let p := simulateComps student_grade base_skill u d g
        (GRADE_COMPETENCIES g) st
      let q := simulateGrades student_grade base_skill u d gs p.2
      (p.1 ++ q.1, q.2)

/-- Function `simulate_student_performance(student_grade, base_skill)` (source lines
38-102): run grades `range(4, 13)` from a zero clock and return the record
list together with the always-`False` stopped-early flag. -/
def simulate_student_performance (student_grade : ℤ) (base_skill : ℚ)
    (u : ℕ → ℚ) (d : ℕ → ℕ) : List Response × Bool :=
  ((simulateGrades student_grade base_skill u d (List.range' 4 9) (0, 0)).1,
   false)

/-- One Output Row of `generate_sample_data` (source lines 124-130): the
student identity fields merged (`**resp`) with one Response Record. -/
structure Row where
  student_id : String
  student_name : String
  student_grade_level : ℤ
  question_id : String
  grade_tag : String
  competency_tag : String
  type_tag : String
  is_correct : ℕ
  timestamp : ℕ
  deriving Repr, DecidableEq

/-- The `fieldnames` list of the CSV writer (source lines 134-136). -/
def FIELDNAMES : List String :=
  ["student_id", "student_name", "student_grade_level",
   "question_id", "grade_tag", "competency_tag", "type_tag",
   "is_correct", "timestamp"]

/-- A Row serialized in `fieldnames` order, as the field list of one CSV
line (`timestamp` printed as its elapsed-seconds encoding, see module
docstring). -/
def rowToFields (r : Row) : List String :=
  [r.student_id, r.student_name, toString r.student_grade_level,
   r.question_id, r.grade_tag, r.competency_tag, r.type_tag,
   toString r.is_correct, toString r.timestamp]

/-- Draw streams for `generate_sample_data`, indexed by the 0-based student
loop counter `i`: `fnIdx`/`lnIdx` model the `random.choice` picks from the
name pools (as indices), `gradeOf` models `random.randint(4, 12)`,
`skillOf` models `random.uniform(0.5, 0.9)`, and `uOf i`/`dOf i` are the
per-question streams consumed by that student's simulation run. -/
structure GenStreams where
  fnIdx : ℕ → ℕ
  lnIdx : ℕ → ℕ
  gradeOf : ℕ → ℤ
  skillOf : ℕ → ℚ
  uOf : ℕ → ℕ → ℚ
  dOf : ℕ → ℕ → ℕ

/-- Body of the student loop (source lines 109-130): synthesize student `i`
(0-based), run the simulator, and prepend the identity fields to each of
its Response Records. -/
def studentRows (gs : GenStreams) (i : ℕ) : List Row :=
  let student_id := "STU" ++ pad3 (i + 1)
  let student_name :=
    FIRST_NAMES.getD (gs.fnIdx i % FIRST_NAMES.length) ""
      ++ " " ++ LAST_NAMES.getD (gs.lnIdx i % LAST_NAMES.length) ""
  let student_grade := gs.gradeOf i
  let responses :=
    (simulate_student_performance student_grade (gs.skillOf i)
      (gs.uOf i) (gs.dOf i)).1
  responses.map (fun r =>
    ⟨student_id, student_name, student_grade, r.question_id, r.grade_tag,
     r.competency_tag, r.type_tag, r.is_correct, r.timestamp⟩)

/-- The six question ids of one competency, in emission order. -/
def compQuestionIds (g : ℕ) (c : String) : List String :=
  QUESTIONS.map (fun p => generate_question_id g c p.1 p.2)

/-- All question ids of one grade, competencies in table order. -/
def gradeQuestionIds (g : ℕ) : List String :=
  (GRADE_COMPETENCIES g).flatMap (compQuestionIds g)

/-- Every question id the nested iteration can produce, grades 4..12 in
order. -/
def allQuestionIds : List String :=
  (List.range' 4 9).flatMap gradeQuestionIds

/-- The elapsed-clock values at which the competency loop of one grade
evaluates its `elapsed >= time_limit_seconds` check while iterating `cs`:
one entry per competency, each taken at the state the loop would hold on
reaching that competency (the trace of the run in which no check fires). -/
def boundaryElapsed (sg : ℤ) (bs : ℚ) (u : ℕ → ℚ) (d : ℕ → ℕ) (g : ℕ) :
    List String → SimState → List ℕ
  | [], _ => []
  | c :: cs, st =>
      st.1 :: boundaryElapsed sg bs u d g cs
        (simulateComp sg bs u d g c st).2

/-- Success probability exactly as the spec words it (base rate by
grade_diff with the `-1 or 0` case spelled literally, then the type-3
penalty, then the clamp into `[0.15, 0.98]`).  This definition follows the
spec text, to be compared with `prob_correct`, which follows the source. -/
def specSuccessProbability (grade_diff : ℤ) (base_skill : ℚ)
    (q_type : ℕ) : ℚ :=
  let base : ℚ :=
    if grade_diff ≤ -2 then 0.95
    else if grade_diff = -1 ∨ grade_diff = 0 then base_skill + 0.1
    else if grade_diff = 1 then base_skill - 0.05
    else if grade_diff = 2 then base_skill - 0.15
    else max 0.25 (base_skill - 0.1 * (grade_diff : ℚ))
  let after_penalty : ℚ := if q_type = 3 then base - 0.05 else base
  max 0.15 (min 0.98 after_penalty)

/-- A concrete choice of draw streams, used for closed instantiations:
every `random.random()` draw is 0, every `random.randint(15, 30)` draw is
15, every student gets grade 4 and base skill 0.7, and all name picks take
index 0. -/
def trivialStreams : GenStreams :=
  ⟨fun _ => 0, fun _ => 0, fun _ => 4, fun _ => 0.7,
   fun _ _ => 0, fun _ _ => 15⟩

/-- Observable outcome of `generate_sample_data`: the CSV file contents
(`none` when the guarded write block is skipped and no file is created) and
the `Generated {n} responses for {m} students` headline print (`none` when
no print happens).  The remaining prints of the summary block (source lines
144-153) iterate a Python `set` of student-id strings, whose order is
hash-randomization dependent, and format a float with `:.0f`; they are
outside this embedding. -/
structure GenResult where
  csvFile : Option (List (List String))
  headline : Option String
  deriving Repr, DecidableEq

/-- Function `generate_sample_data(num_students, output_file)` (source lines
105-153): build `all_rows` student by student; then, only when `all_rows`
is non-empty (`if all_rows:`), write the header row followed by the data
rows and print the headline. -/
def generate_sample_data (num_students : ℕ) (gs : GenStreams) : GenResult :=
  let all_rows := (List.range num_students).flatMap (studentRows gs)
  if all_rows.isEmpty then ⟨none, none⟩
  else
    ⟨some (FIELDNAMES :: all_rows.map rowToFields),
     some ("Generated " ++ toString all_rows.length ++ " responses for "
       ++ toString num_students ++ " students")⟩

section SimLemmas

variable (sg : ℤ) (bs : ℚ) (u : ℕ → ℚ) (d : ℕ → ℕ) (g : ℕ) (c : String)

theorem answerQuestion_snd (t s : ℕ) (st : SimState) :
    (answerQuestion sg bs u d g c t s st).2
      = (st.1 + (d st.2 + (g - 4) * 3), st.2 + 1) := rfl

theorem answerQuestion_timestamp (t s : ℕ) (st : SimState) :
    (answerQuestion sg bs u d g c t s st).1.timestamp
      = st.1 + (d st.2 + (g - 4) * 3) := rfl

theorem simulateQs_length (qs : List (ℕ × ℕ)) :
    ∀ st : SimState, (simulateQs sg bs u d g c qs st).1.length = qs.length := by
  induction qs with
  | nil => intro st; rfl
  | cons q qs ih =>
      intro st
      simp only [simulateQs, List.length_cons, ih]

theorem simulateQs_elapsed_le (qs : List (ℕ × ℕ)) :
    ∀ st : SimState, st.1 ≤ (simulateQs sg bs u d g c qs st).2.1 := by
  induction qs with
  | nil => intro st; exact le_refl _
  | cons q qs ih =>
      intro st
      simp only [simulateQs]
      refine le_trans ?_ (ih _)
      simp only [answerQuestion_snd]
      exact Nat.le_add_right _ _

theorem simulateQs_timestamp_bounds (qs : List (ℕ × ℕ)) :
    ∀ st : SimState, ∀ r ∈ (simulateQs sg bs u d g c qs st).1,
      st.1 ≤ r.timestamp ∧ r.timestamp ≤ (simulateQs sg bs u d g c qs st).2.1 := by
  induction qs with
  | nil => intro st r hr; cases hr
  | cons q qs ih =>
      intro st r hr
      simp only [simulateQs, List.mem_cons] at hr
      rcases hr with hr | hr
      · subst hr
        constructor
        · simp only [answerQuestion_timestamp]
          exact Nat.le_add_right _ _
        · simp only [simulateQs, answerQuestion_timestamp, answerQuestion_snd]
          exact simulateQs_elapsed_le sg bs u d g c qs
            (st.1 + (d st.2 + (g - 4) * 3), st.2 + 1)
      · rcases ih _ r hr with ⟨h1, h2⟩
        constructor
        · refine le_trans ?_ h1
          simp only [answerQuestion_snd]
          exact Nat.le_add_right _ _
        · simpa only [simulateQs] using h2

theorem simulateQs_timestamps_pairwise (qs : List (ℕ × ℕ)) :
    ∀ st : SimState,
      ((simulateQs sg bs u d g c qs st).1.map Response.timestamp).Pairwise
        (· ≤ ·) := by
  induction qs with
  | nil => intro st; exact List.Pairwise.nil
  | cons q qs ih =>
      intro st
      simp only [simulateQs, List.map_cons, List.pairwise_cons]
      refine ⟨?_, ih _⟩
      intro b hb
      simp only [List.mem_map] at hb
      rcases hb with ⟨r, hr, rfl⟩
      have h := (simulateQs_timestamp_bounds sg bs u d g c qs _ r hr).1
      refine le_trans ?_ h
      simp only [answerQuestion_timestamp, answerQuestion_snd]
      exact le_refl _

theorem exhausted_comps (cs : List String) (st : SimState)
    (h : time_limit_seconds ≤ st.1) :
    simulateComps sg bs u d g cs st = ([], st) := by
  cases cs with
  | nil => rfl
  | cons c cs => simp only [simulateComps, if_pos h]

theorem exhausted_grades (gs : List ℕ) (st : SimState)
    (h : time_limit_seconds ≤ st.1) :
    simulateGrades sg bs u d gs st = ([], st) := by
  induction gs with
  | nil => rfl
  | cons g gs ih =>
      simp only [simulateGrades, exhausted_comps sg bs u d g _ st h, ih,
        List.nil_append]

theorem simulateComps_elapsed_le (cs : List String) :
    ∀ st : SimState, st.1 ≤ (simulateComps sg bs u d g cs st).2.1 := by
  induction cs with
  | nil => intro st; exact le_refl _
  | cons c cs ih =>
      intro st
      by_cases h : time_limit_seconds ≤ st.1
      · simp only [simulateComps, if_pos h]
        exact le_refl _
      · simp only [simulateComps, if_neg h, simulateComp]
        exact le_trans (simulateQs_elapsed_le sg bs u d g c QUESTIONS st)
          (ih _)

theorem simulateComps_timestamp_bounds (cs : List String) :
    ∀ st : SimState, ∀ r ∈ (simulateComps sg bs u d g cs st).1,
      st.1 ≤ r.timestamp
        ∧ r.timestamp ≤ (simulateComps sg bs u d g cs st).2.1 := by
  induction cs with
  | nil => intro st r hr; cases hr
  | cons c cs ih =>
      intro st r hr
      by_cases h : time_limit_seconds ≤ st.1
      · rw [exhausted_comps sg bs u d g _ st h] at hr; cases hr
      · simp only [simulateComps, if_neg h, simulateComp, List.mem_append]
          at hr ⊢
        rcases hr with hr | hr
        · rcases simulateQs_timestamp_bounds sg bs u d g c QUESTIONS st r hr
            with ⟨h1, h2⟩
          exact ⟨h1, le_trans h2 (simulateComps_elapsed_le sg bs u d g cs _)⟩
        · rcases ih _ r hr with ⟨h1, h2⟩
          exact ⟨le_trans (simulateQs_elapsed_le sg bs u d g c QUESTIONS st)
            h1, h2⟩

theorem simulateComps_timestamps_pairwise (cs : List String) :
    ∀ st : SimState,
      ((simulateComps sg bs u d g cs st).1.map Response.timestamp).Pairwise
        (· ≤ ·) := by
  induction cs with
  | nil => intro st; exact List.Pairwise.nil
  | cons c cs ih =>
      intro st
      by_cases h : time_limit_seconds ≤ st.1
      · rw [exhausted_comps sg bs u d g _ st h]; exact List.Pairwise.nil
      · simp only [simulateComps, if_neg h, simulateComp, List.map_append,
          List.pairwise_append]
        refine ⟨simulateQs_timestamps_pairwise sg bs u d g c QUESTIONS st,
          ih _, ?_⟩
        intro a ha b hb
        simp only [List.mem_map] at ha hb
        rcases ha with ⟨r1, hr1, rfl⟩
        rcases hb with ⟨r2, hr2, rfl⟩
        have h1 := (simulateQs_timestamp_bounds sg bs u d g c QUESTIONS st
          r1 hr1).2
        have h2 := (simulateComps_timestamp_bounds sg bs u d g cs _ r2 hr2).1
        exact le_trans h1 h2

theorem simulateGrades_elapsed_le (gs : List ℕ) :
    ∀ st : SimState, st.1 ≤ (simulateGrades sg bs u d gs st).2.1 := by
  induction gs with
  | nil => intro st; exact le_refl _
  | cons g gs ih =>
      intro st
      simp only [simulateGrades]
      exact le_trans (simulateComps_elapsed_le sg bs u d g _ st) (ih _)

theorem simulateGrades_timestamp_bounds (gs : List ℕ) :
    ∀ st : SimState, ∀ r ∈ (simulateGrades sg bs u d gs st).1,
      st.1 ≤ r.timestamp
        ∧ r.timestamp ≤ (simulateGrades sg bs u d gs st).2.1 := by
  induction gs with
  | nil => intro st r hr; cases hr
  | cons g gs ih =>
      intro st r hr
      simp only [simulateGrades, List.mem_append] at hr ⊢
      rcases hr with hr | hr
      · rcases simulateComps_timestamp_bounds sg bs u d g _ st r hr
          with ⟨h1, h2⟩
        exact ⟨h1, le_trans h2 (simulateGrades_elapsed_le sg bs u d gs _)⟩
      · rcases ih _ r hr with ⟨h1, h2⟩
        exact ⟨le_trans (simulateComps_elapsed_le sg bs u d g _ st) h1, h2⟩

theorem simulateGrades_timestamps_pairwise (gs : List ℕ) :
    ∀ st : SimState,
      ((simulateGrades sg bs u d gs st).1.map Response.timestamp).Pairwise
        (· ≤ ·) := by
  induction gs with
  | nil => intro st; exact List.Pairwise.nil
  | cons g gs ih =>
      intro st
      simp only [simulateGrades, List.map_append, List.pairwise_append]
      refine ⟨simulateComps_timestamps_pairwise sg bs u d g _ st, ih _, ?_⟩
      intro a ha b hb
      simp only [List.mem_map] at ha hb
      rcases ha with ⟨r1, hr1, rfl⟩
      rcases hb with ⟨r2, hr2, rfl⟩
      have h1 := (simulateComps_timestamp_bounds sg bs u d g _ st r1 hr1).2
      have h2 := (simulateGrades_timestamp_bounds sg bs u d gs _ r2 hr2).1
      exact le_trans h1 h2

end SimLemmas

section IdLemmas

variable (sg : ℤ) (bs : ℚ) (u : ℕ → ℚ) (d : ℕ → ℕ) (g : ℕ) (c : String)

theorem flatMap_sublist_of_sublist {α β : Type} (f : α → List β)
    {l1 l2 : List α} (h : List.Sublist l1 l2) :
    List.Sublist (l1.flatMap f) (l2.flatMap f) := by
  induction h with
  | slnil => exact List.Sublist.refl _
  | cons a h ih => simpa using ih.trans (List.sublist_append_right _ _)
  | cons₂ a h ih =>
      simp only [List.flatMap_cons]
      exact List.Sublist.append (List.Sublist.refl (f a)) ih

theorem simulateQs_ids (qs : List (ℕ × ℕ)) :
    ∀ st : SimState,
      (simulateQs sg bs u d g c qs st).1.map Response.question_id
        = qs.map (fun p => generate_question_id g c p.1 p.2) := by
  induction qs with
  | nil => intro st; rfl
  | cons q qs ih =>
      intro st
      simp only [simulateQs, List.map_cons, ih]
      rfl

theorem simulateComps_ids (cs : List String) :
    ∀ st : SimState, ∃ n : ℕ,
      (simulateComps sg bs u d g cs st).1.map Response.question_id
        = (cs.take n).flatMap (compQuestionIds g) := by
  induction cs with
  | nil => intro st; exact ⟨0, rfl⟩
  | cons c cs ih =>
      intro st
      by_cases h : time_limit_seconds ≤ st.1
      · refine ⟨0, ?_⟩
        rw [exhausted_comps sg bs u d g _ st h]
        rfl
      · rcases ih ((simulateComp sg bs u d g c st).2) with ⟨n, hn⟩
        refine ⟨n + 1, ?_⟩
        simp only [simulateComps, if_neg h, List.map_append, hn,
          List.take_succ_cons, List.flatMap_cons]
        congr 1

theorem simulateGrades_ids_sublist (gs : List ℕ) :
    ∀ st : SimState,
      List.Sublist
        ((simulateGrades sg bs u d gs st).1.map Response.question_id)
        (gs.flatMap gradeQuestionIds) := by
  induction gs with
  | nil => intro st; exact List.Sublist.refl _
  | cons g gs ih =>
      intro st
      simp only [simulateGrades, List.map_append, List.flatMap_cons]
      refine List.Sublist.append ?_ (ih _)
      rcases simulateComps_ids sg bs u d g (GRADE_COMPETENCIES g) st
        with ⟨n, hn⟩
      rw [hn]
      exact flatMap_sublist_of_sublist _
        (List.take_sublist n (GRADE_COMPETENCIES g))

end IdLemmas

set_option maxRecDepth 100000 in
/-- All 216 potential question ids are pairwise distinct: grade, competency
tag, type and sequence are all encoded in the id string. -/
theorem allQuestionIds_nodup : allQuestionIds.Nodup := by decide

section StepLemmas

variable (sg : ℤ) (bs : ℚ) (u : ℕ → ℚ) (d : ℕ → ℕ) (g : ℕ)

theorem simulateComp_length (c : String) (st : SimState) :
    (simulateComp sg bs u d g c st).1.length = 6 := by
  rw [simulateComp, simulateQs_length]
  rfl

theorem simulateComps_cons_not_exhausted (c : String) (cs : List String)
    (st : SimState) (h : ¬ time_limit_seconds ≤ st.1) :
    simulateComps sg bs u d g (c :: cs) st
      = ((simulateComp sg bs u d g c st).1
          ++ (simulateComps sg bs u d g cs
              (simulateComp sg bs u d g c st).2).1,
         (simulateComps sg bs u d g cs
           (simulateComp sg bs u d g c st).2).2) := by
  simp only [simulateComps, if_neg h]

theorem simulateGrades_cons (gs : List ℕ) (st : SimState) :
    simulateGrades sg bs u d (g :: gs) st
      = ((simulateComps sg bs u d g (GRADE_COMPETENCIES g) st).1
          ++ (simulateGrades sg bs u d gs
              (simulateComps sg bs u d g (GRADE_COMPETENCIES g) st).2).1,
         (simulateGrades sg bs u d gs
           (simulateComps sg bs u d g (GRADE_COMPETENCIES g) st).2).2) :=
  rfl

theorem simulateComps_ids_of_no_break (cs : List String) :
    ∀ st : SimState,
      (∀ e ∈ boundaryElapsed sg bs u d g cs st, e < time_limit_seconds) →
      (simulateComps sg bs u d g cs st).1.map Response.question_id
        = cs.flatMap (compQuestionIds g) := by
  induction cs with
  | nil => intro st _; rfl
  | cons c cs ih =>
      intro st h
      have h0 : st.1 < time_limit_seconds := by
        refine h st.1 ?_
        simp [boundaryElapsed]
      rw [simulateComps_cons_not_exhausted sg bs u d g c cs st
        (not_le.mpr h0)]
      simp only [List.map_append, List.flatMap_cons]
      congr 1
      refine ih _ (fun e he => h e ?_)
      simp only [boundaryElapsed, List.mem_cons]
      exact Or.inr he

theorem time_limit_seconds_eq : time_limit_seconds = 5400 := rfl

theorem simulateQs_elapsed_lb (c : String) (h15 : ∀ k, 15 ≤ d k)
    (qs : List (ℕ × ℕ)) :
    ∀ st : SimState,
      st.1 + qs.length * (15 + (g - 4) * 3)
        ≤ (simulateQs sg bs u d g c qs st).2.1 := by
  induction qs with
  | nil => intro st; simp [simulateQs]
  | cons q qs ih =>
      intro st
      simp only [simulateQs, List.length_cons]
      have hstep := ih ((answerQuestion sg bs u d g c q.1 q.2 st).2)
      rw [answerQuestion_snd] at hstep
      refine le_trans ?_ hstep
      have h1 : st.1 + (qs.length + 1) * (15 + (g - 4) * 3)
          = (st.1 + (15 + (g - 4) * 3))
            + qs.length * (15 + (g - 4) * 3) := by ring
      rw [h1]
      refine Nat.add_le_add_right ?_ _
      exact Nat.add_le_add_left (Nat.add_le_add_right (h15 st.2) _) _

theorem simulateComp_elapsed_lb (c : String) (st : SimState)
    (h15 : ∀ k, 15 ≤ d k) :
    st.1 + 6 * (15 + (g - 4) * 3) ≤ (simulateComp sg bs u d g c st).2.1 :=
  simulateQs_elapsed_lb sg bs u d g c h15 QUESTIONS st

/-- One grade's competency loop over its four competencies: either no check
fires (24 records, the clock advanced by at least four competencies' worth
of minimum durations, and — since the fourth boundary check must have
passed — the entry clock plus three competencies' minimum cost was still
under the budget), or some check fired (at most 18 records, final clock at
or past the budget). -/
theorem simulateComps4_step (c1 c2 c3 c4 : String) (st : SimState)
    (h15 : ∀ k, 15 ≤ d k) :
    ((simulateComps sg bs u d g [c1, c2, c3, c4] st).1.length = 24
      ∧ st.1 + 4 * (6 * (15 + (g - 4) * 3))
          ≤ (simulateComps sg bs u d g [c1, c2, c3, c4] st).2.1
      ∧ st.1 + 3 * (6 * (15 + (g - 4) * 3)) < time_limit_seconds)
    ∨ ((simulateComps sg bs u d g [c1, c2, c3, c4] st).1.length ≤ 18
        ∧ time_limit_seconds
            ≤ (simulateComps sg bs u d g [c1, c2, c3, c4] st).2.1) := by
  by_cases h0 : time_limit_seconds ≤ st.1
  · right
    rw [exhausted_comps sg bs u d g _ st h0]
    exact ⟨by simp, h0⟩
  rw [simulateComps_cons_not_exhausted sg bs u d g c1 [c2, c3, c4] st h0]
  have hlb1 := simulateComp_elapsed_lb sg bs u d g c1 st h15
  by_cases h1 : time_limit_seconds ≤ (simulateComp sg bs u d g c1 st).2.1
  · right
    rw [exhausted_comps sg bs u d g _ _ h1]
    refine ⟨?_, h1⟩
    simp [simulateComp_length]
  rw [simulateComps_cons_not_exhausted sg bs u d g c2 [c3, c4] _ h1]
  have hlb2 := simulateComp_elapsed_lb sg bs u d g c2
    (simulateComp sg bs u d g c1 st).2 h15
  by_cases h2 : time_limit_seconds
      ≤ (simulateComp sg bs u d g c2 (simulateComp sg bs u d g c1 st).2).2.1
  · right
    rw [exhausted_comps sg bs u d g _ _ h2]
    refine ⟨?_, h2⟩
    simp [simulateComp_length]
  rw [simulateComps_cons_not_exhausted sg bs u d g c3 [c4] _ h2]
  have hlb3 := simulateComp_elapsed_lb sg bs u d g c3
    (simulateComp sg bs u d g c2 (simulateComp sg bs u d g c1 st).2).2 h15
  by_cases h3 : time_limit_seconds
      ≤ (simulateComp sg bs u d g c3
          (simulateComp sg bs u d g c2
            (simulateComp sg bs u d g c1 st).2).2).2.1
  · right
    rw [exhausted_comps sg bs u d g _ _ h3]
    refine ⟨?_, h3⟩
    simp [simulateComp_length]
  rw [simulateComps_cons_not_exhausted sg bs u d g c4 [] _ h3]
  have hlb4 := simulateComp_elapsed_lb sg bs u d g c4
    (simulateComp sg bs u d g c3
      (simulateComp sg bs u d g c2
        (simulateComp sg bs u d g c1 st).2).2).2 h15
  left
  refine ⟨?_, ?_, ?_⟩
  · simp [simulateComps, simulateComp_length]
  · simp only [simulateComps]
    omega
  · omega

theorem simulateGrades_nil (st : SimState) :
    simulateGrades sg bs u d [] st = ([], st) := rfl

/-- Lemma `simulateComps4_step` specialised to a grade's own competency list
(each grade in `[4, 12]` has exactly four competencies). -/
theorem simulateCompsGrade_step (hg : 4 ≤ g ∧ g ≤ 12) (st : SimState)
    (h15 : ∀ k, 15 ≤ d k) :
    ((simulateComps sg bs u d g (GRADE_COMPETENCIES g) st).1.length = 24
      ∧ st.1 + 4 * (6 * (15 + (g - 4) * 3))
          ≤ (simulateComps sg bs u d g (GRADE_COMPETENCIES g) st).2.1
      ∧ st.1 + 3 * (6 * (15 + (g - 4) * 3)) < time_limit_seconds)
    ∨ ((simulateComps sg bs u d g (GRADE_COMPETENCIES g) st).1.length ≤ 18
        ∧ time_limit_seconds
            ≤ (simulateComps sg bs u d g (GRADE_COMPETENCIES g) st).2.1) := by
  obtain ⟨hg1, hg2⟩ := hg
  interval_cases g <;>
    exact simulateComps4_step sg bs u d _ _ _ _ _ st h15

theorem gradesFrom12_len (st : SimState) (h15 : ∀ k, 15 ≤ d k)
    (hlb : 4896 ≤ st.1) :
    (simulateGrades sg bs u d [12] st).1.length ≤ 18 := by
  rw [simulateGrades_cons]
  rcases simulateCompsGrade_step sg bs u d 12 ⟨by omega, by omega⟩ st h15
    with ⟨h24, hnext, hchk⟩ | ⟨h18, hex⟩
  · rw [time_limit_seconds_eq] at hchk
    omega
  · rw [simulateGrades_nil]
    simp only [List.length_append, List.length_nil]
    omega

theorem gradesFrom11_len (st : SimState) (h15 : ∀ k, 15 ≤ d k)
    (hlb : 4032 ≤ st.1) :
    (simulateGrades sg bs u d [11, 12] st).1.length ≤ 42 := by
  rw [simulateGrades_cons]
  rcases simulateCompsGrade_step sg bs u d 11 ⟨by omega, by omega⟩ st h15
    with ⟨h24, hnext, _⟩ | ⟨h18, hex⟩
  · have hrest := gradesFrom12_len sg bs u d
      (simulateComps sg bs u d 11 (GRADE_COMPETENCIES 11) st).2 h15
      (by omega)
    simp only [List.length_append]
    omega
  · rw [exhausted_grades sg bs u d _ _ hex]
    simp only [List.length_append, List.length_nil]
    omega

theorem gradesFrom10_len (st : SimState) (h15 : ∀ k, 15 ≤ d k)
    (hlb : 3240 ≤ st.1) :
    (simulateGrades sg bs u d [10, 11, 12] st).1.length ≤ 66 := by
  rw [simulateGrades_cons]
  rcases simulateCompsGrade_step sg bs u d 10 ⟨by omega, by omega⟩ st h15
    with ⟨h24, hnext, _⟩ | ⟨h18, hex⟩
  · have hrest := gradesFrom11_len sg bs u d
      (simulateComps sg bs u d 10 (GRADE_COMPETENCIES 10) st).2 h15
      (by omega)
    simp only [List.length_append]
    omega
  · rw [exhausted_grades sg bs u d _ _ hex]
    simp only [List.length_append, List.length_nil]
    omega

theorem gradesFrom9_len (st : SimState) (h15 : ∀ k, 15 ≤ d k)
    (hlb : 2520 ≤ st.1) :
    (simulateGrades sg bs u d [9, 10, 11, 12] st).1.length ≤ 90 := by
  rw [simulateGrades_cons]
  rcases simulateCompsGrade_step sg bs u d 9 ⟨by omega, by omega⟩ st h15
    with ⟨h24, hnext, _⟩ | ⟨h18, hex⟩
  · have hrest := gradesFrom10_len sg bs u d
      (simulateComps sg bs u d 9 (GRADE_COMPETENCIES 9) st).2 h15
      (by omega)
    simp only [List.length_append]
    omega
  · rw [exhausted_grades sg bs u d _ _ hex]
    simp only [List.length_append, List.length_nil]
    omega

theorem gradesFrom8_len (st : SimState) (h15 : ∀ k, 15 ≤ d k)
    (hlb : 1872 ≤ st.1) :
    (simulateGrades sg bs u d [8, 9, 10, 11, 12] st).1.length ≤ 114 := by
  rw [simulateGrades_cons]
  rcases simulateCompsGrade_step sg bs u d 8 ⟨by omega, by omega⟩ st h15
    with ⟨h24, hnext, _⟩ | ⟨h18, hex⟩
  · have hrest := gradesFrom9_len sg bs u d
      (simulateComps sg bs u d 8 (GRADE_COMPETENCIES 8) st).2 h15
      (by omega)
    simp only [List.length_append]
    omega
  · rw [exhausted_grades sg bs u d _ _ hex]
    simp only [List.length_append, List.length_nil]
    omega

theorem gradesFrom7_len (st : SimState) (h15 : ∀ k, 15 ≤ d k)
    (hlb : 1296 ≤ st.1) :
    (simulateGrades sg bs u d [7, 8, 9, 10, 11, 12] st).1.length ≤ 138 := by
  rw [simulateGrades_cons]
  rcases simulateCompsGrade_step sg bs u d 7 ⟨by omega, by omega⟩ st h15
    with ⟨h24, hnext, _⟩ | ⟨h18, hex⟩
  · have hrest := gradesFrom8_len sg bs u d
      (simulateComps sg bs u d 7 (GRADE_COMPETENCIES 7) st).2 h15
      (by omega)
    simp only [List.length_append]
    omega
  · rw [exhausted_grades sg bs u d _ _ hex]
    simp only [List.length_append, List.length_nil]
    omega

theorem gradesFrom6_len (st : SimState) (h15 : ∀ k, 15 ≤ d k)
    (hlb : 792 ≤ st.1) :
    (simulateGrades sg bs u d [6, 7, 8, 9, 10, 11, 12] st).1.length
      ≤ 162 := by
  rw [simulateGrades_cons]
  rcases simulateCompsGrade_step sg bs u d 6 ⟨by omega, by omega⟩ st h15
    with ⟨h24, hnext, _⟩ | ⟨h18, hex⟩
  · have hrest := gradesFrom7_len sg bs u d
      (simulateComps sg bs u d 6 (GRADE_COMPETENCIES 6) st).2 h15
      (by omega)
    simp only [List.length_append]
    omega
  · rw [exhausted_grades sg bs u d _ _ hex]
    simp only [List.length_append, List.length_nil]
    omega

theorem gradesFrom5_len (st : SimState) (h15 : ∀ k, 15 ≤ d k)
    (hlb : 360 ≤ st.1) :
    (simulateGrades sg bs u d [5, 6, 7, 8, 9, 10, 11, 12] st).1.length
      ≤ 186 := by
  rw [simulateGrades_cons]
  rcases simulateCompsGrade_step sg bs u d 5 ⟨by omega, by omega⟩ st h15
    with ⟨h24, hnext, _⟩ | ⟨h18, hex⟩
  · have hrest := gradesFrom6_len sg bs u d
      (simulateComps sg bs u d 5 (GRADE_COMPETENCIES 5) st).2 h15
      (by omega)
    simp only [List.length_append]
    omega
  · rw [exhausted_grades sg bs u d _ _ hex]
    simp only [List.length_append, List.length_nil]
    omega

theorem gradesFrom4_len (st : SimState) (h15 : ∀ k, 15 ≤ d k) :
    (simulateGrades sg bs u d [4, 5, 6, 7, 8, 9, 10, 11, 12] st).1.length
      ≤ 210 := by
  rw [simulateGrades_cons]
  rcases simulateCompsGrade_step sg bs u d 4 ⟨by omega, by omega⟩ st h15
    with ⟨h24, hnext, _⟩ | ⟨h18, hex⟩
  · have hrest := gradesFrom5_len sg bs u d
      (simulateComps sg bs u d 4 (GRADE_COMPETENCIES 4) st).2 h15
      (by omega)
    simp only [List.length_append]
    omega
  · rw [exhausted_grades sg bs u d _ _ hex]
    simp only [List.length_append, List.length_nil]
    omega

end StepLemmas

/-- Claim C1 (counterexample): calling `generate_sample_data` with student
count 0 does not produce a header-only file together with the
`Generated 0 responses for 0 students` headline — the whole write-and-print
block is skipped. -/
theorem C1_counterexample :
    ¬ ((generate_sample_data 0 trivialStreams).csvFile = some [FIELDNAMES]
        ∧ (generate_sample_data 0 trivialStreams).headline
            = some ("Generated 0 responses for 0 students")) := by
  decide

/-- Claim C1 (amended): when `generate_sample_data` is called with student
count 0, `all_rows` is empty, so the guarded write block is skipped
entirely: no output file is written (not even a header row) and no summary
is printed. -/
theorem C1_zero_students_no_file_no_print (gs : GenStreams) :
    generate_sample_data 0 gs = ⟨none, none⟩ := by
  simp [generate_sample_data]

/-- Claim C2: for every question, the success probability equals the
spec's piecewise base rate in grade_diff, minus 0.05 for question type 3,
clamped into `[0.15, 0.98]`; and the clamped value always lies in
`[0.15, 0.98]`. -/
theorem C2_success_probability_spec (g : ℕ) (sg : ℤ) (bs : ℚ) (t : ℕ) :
    prob_correct g sg bs t = specSuccessProbability ((g : ℤ) - sg) bs t
      ∧ 0.15 ≤ prob_correct g sg bs t
      ∧ prob_correct g sg bs t ≤ 0.98 := by
  refine ⟨?_, le_max_left _ _, max_le (by norm_num) (min_le_left _ _)⟩
  simp only [prob_correct, specSuccessProbability]
  split_ifs with h1 h2 h3 h4 h5 <;> first
    | rfl
    | omega
    | (congr 1; congr 1; ring)

/-- Claim C3: the 90-minute budget is checked only at competency
boundaries; from any state whose elapsed time has reached the budget, the
competency loop of the current grade breaks immediately (emitting nothing
and leaving the state unchanged), and every remaining grade of the outer
loop — which advances regardless — also emits nothing, so no further
Response Records are ever produced for the student. -/
theorem C3_budget_exhaustion_truncation (sg : ℤ) (bs : ℚ) (u : ℕ → ℚ)
    (d : ℕ → ℕ) (g : ℕ) (cs : List String) (gs : List ℕ) (st : SimState)
    (h : time_limit_seconds ≤ st.1) :
    simulateComps sg bs u d g cs st = ([], st)
      ∧ simulateGrades sg bs u d gs st = ([], st) :=
  ⟨exhausted_comps sg bs u d g cs st h,
   exhausted_grades sg bs u d gs st h⟩

/-- Witness for C3 at a concrete exhausted state. -/
theorem C3_witness :
    time_limit_seconds ≤ (5400, 0).1
      ∧ (simulateComps 4 0.7 (fun _ => 0) (fun _ => 15) 4
          (GRADE_COMPETENCIES 4) (5400, 0) = ([], (5400, 0))
        ∧ simulateGrades 4 0.7 (fun _ => 0) (fun _ => 15)
            (List.range' 4 9) (5400, 0) = ([], (5400, 0))) :=
  ⟨by decide,
   C3_budget_exhaustion_truncation 4 0.7 (fun _ => 0) (fun _ => 15) 4
     (GRADE_COMPETENCIES 4) (List.range' 4 9) (5400, 0) (by decide)⟩

/-- Claim C5: for every grade g in `[4, 12]`, when the time-budget check
fires at none of grade g's competency boundaries (no truncation), the
records the simulator generates for grade g are exactly the 24 questions
given by the 4 competencies in table order, each contributing the 6
`(type, sequence)` pairs in fixed order (type 1, 2, 3; within each type,
sequence 1 then 2). -/
theorem C5_grade_block_is_24_fixed_questions (g : ℕ) (sg : ℤ) (bs : ℚ)
    (u : ℕ → ℚ) (d : ℕ → ℕ) (st : SimState) (hg1 : 4 ≤ g) (hg2 : g ≤ 12)
    (h : ∀ e ∈ boundaryElapsed sg bs u d g (GRADE_COMPETENCIES g) st,
      e < time_limit_seconds) :
    (simulateComps sg bs u d g (GRADE_COMPETENCIES g) st).1.map
        Response.question_id
      = gradeQuestionIds g
      ∧ (simulateComps sg bs u d g (GRADE_COMPETENCIES g) st).1.length
          = 24 := by
  have hid := simulateComps_ids_of_no_break sg bs u d g
    (GRADE_COMPETENCIES g) st h
  refine ⟨hid, ?_⟩
  have hlen := congrArg List.length hid
  rw [List.length_map] at hlen
  rw [hlen]
  interval_cases g <;> rfl

/-- Witness for C5: grade 4 from the initial state with all-minimal
duration draws. -/
theorem C5_witness :
    (simulateComps 4 0.7 (fun _ => 0) (fun _ => 15) 4
        (GRADE_COMPETENCIES 4) (0, 0)).1.map Response.question_id
      = gradeQuestionIds 4
      ∧ (simulateComps 4 0.7 (fun _ => 0) (fun _ => 15) 4
          (GRADE_COMPETENCIES 4) (0, 0)).1.length = 24 :=
  C5_grade_block_is_24_fixed_questions 4 4 0.7 (fun _ => 0) (fun _ => 15)
    (0, 0) (by decide) (by decide) (by decide)

/-- Claim C6: within one student's record sequence, the timestamps are
monotonically non-decreasing — each record carries the simulated clock
after its question's advance, so every later record's timestamp is at
least every earlier one's. -/
theorem C6_timestamps_monotone (sg : ℤ) (bs : ℚ) (u : ℕ → ℚ)
    (d : ℕ → ℕ) :
    (((simulate_student_performance sg bs u d).1).map
      Response.timestamp).Pairwise (· ≤ ·) :=
  simulateGrades_timestamps_pairwise sg bs u d (List.range' 4 9) (0, 0)

/-- Claim C7: within a single student's full record sequence, no two
Response Records share the same question identifier (the identifier
encodes grade, competency, type and sequence, and the nested iteration
never repeats a tuple). -/
theorem C7_question_ids_nodup (sg : ℤ) (bs : ℚ) (u : ℕ → ℚ)
    (d : ℕ → ℕ) :
    (((simulate_student_performance sg bs u d).1).map
      Response.question_id).Nodup :=
  List.Nodup.sublist
    (simulateGrades_ids_sublist sg bs u d (List.range' 4 9) (0, 0))
    allQuestionIds_nodup

/-- Claim C8: `generate_question_id` is pure, and for every grade in
`[4, 12]`, competency tag, type in `{1, 2, 3}` and sequence in `{1, 2}` it
returns `G{grade}_{competency}_T{type}_{seq:02d}`, the sequence
zero-padded to two digits. -/
theorem C8_question_id_format (g : ℕ) (c : String) (t s : ℕ)
    (hg1 : 4 ≤ g) (hg2 : g ≤ 12) (ht : t = 1 ∨ t = 2 ∨ t = 3)
    (hs : s = 1 ∨ s = 2) :
    generate_question_id g c t s
      = "G" ++ toString g ++ "_" ++ c ++ "_T" ++ toString t ++ "_"
        ++ ("0" ++ toString s) := by
  unfold generate_question_id
  congr 1
  rcases hs with rfl | rfl <;> rfl

/-- Witness for C8 at the spec's own end-to-end example id. -/
theorem C8_witness :
    generate_question_id 4 ("NUM-MultiDigit") 1 1
      = "G" ++ toString 4 ++ "_" ++ ("NUM-MultiDigit") ++ "_T"
        ++ toString 1 ++ "_" ++ ("0" ++ toString 1) :=
  C8_question_id_format 4 ("NUM-MultiDigit") 1 1 (by decide) (by decide)
    (Or.inl rfl) (Or.inl rfl)

/-- Claim C9: for every student and every sequence of draws, the simulator
emits at least one Response Record (the clock starts at zero, so grade 4's
first competency is always reached before any time can accumulate), hence
the per-student division in the summary statistics never divides by
zero. -/
theorem C9_at_least_one_record (sg : ℤ) (bs : ℚ) (u : ℕ → ℚ)
    (d : ℕ → ℕ) :
    1 ≤ (simulate_student_performance sg bs u d).1.length := by
  show 1 ≤ (simulateGrades sg bs u d (List.range' 4 9) (0, 0)).1.length
  rw [show List.range' 4 9 = 4 :: List.range' 5 8 from rfl]
  rw [simulateGrades_cons]
  rw [show GRADE_COMPETENCIES 4
    = "NUM-MultiDigit"
      :: ["COMP-Advanced", "MEAS-Standard", "GEOM-Reasoning"] from rfl]
  rw [simulateComps_cons_not_exhausted sg bs u d 4 _ _ _ (by decide)]
  simp only [List.length_append, List.append_assoc, simulateComp_length]
  omega

/-- Claim C10: for every student and every sequence of valid duration draws
(each at least the `randint` lower bound 15), the 90-minute budget is
exhausted before the traversal reaches the last competency of grade 12, so
no student ever emits records for all 36 competencies: the record count is
at most 210, strictly fewer than 216. -/
theorem C10_budget_always_truncates (sg : ℤ) (bs : ℚ) (u : ℕ → ℚ)
    (d : ℕ → ℕ) (h15 : ∀ k, 15 ≤ d k) :
    (simulate_student_performance sg bs u d).1.length ≤ 210
      ∧ (simulate_student_performance sg bs u d).1.length < 216 := by
  have h : (simulate_student_performance sg bs u d).1.length ≤ 210 := by
    show (simulateGrades sg bs u d (List.range' 4 9) (0, 0)).1.length ≤ 210
    rw [show List.range' 4 9 = [4, 5, 6, 7, 8, 9, 10, 11, 12] from rfl]
    exact gradesFrom4_len sg bs u d (0, 0) h15
  exact ⟨h, by omega⟩

/-- Witness for C10 with all-minimal duration draws. -/
theorem C10_witness :
    (simulate_student_performance 4 0.7 (fun _ => 0)
      (fun _ => 15)).1.length ≤ 210
      ∧ (simulate_student_performance 4 0.7 (fun _ => 0)
          (fun _ => 15)).1.length < 216 :=
  C10_budget_always_truncates 4 0.7 (fun _ => 0) (fun _ => 15)
    (fun _ => le_refl 15)

end ApexMaths
